import Mathlib

/-!
Verification of the PR security-audit dashboard.

The development shallowly embeds the core logic of the repository:

* the diff rendering pass of `src/components/dashboard.tsx` (splitting the
  diff on newlines, classifying each line by its prefix, stripping the
  one-character diff marker, and correlating security issues to lines);
* the partial-object coercion of `src/components/dashboard.tsx` (mapping the
  possibly-partial streamed `object` to a total `SecurityAnalysis` value);
* the prompt construction of the analyze endpoints (`diff.substring(0, 30000)`
  spliced into a fixed template);
* the chunked stream accumulation and candidate extraction.  The accumulator,
  extractor and stream controller are not present as code under `src/` (the
  dashboard delegates to the AI SDK `useObject` hook; the in-repo
  implementation guide documents the `decoder.decode(value, stream: true)`
  loop), so those parts are modelled from the specification.

Strings are manipulated through their character lists so that every
definition evaluates by kernel reduction.  JavaScript code-unit positions are
modelled as character positions.
-/

/-- The classification of one rendered diff line (dashboard.tsx render
branches). -/
inductive DiffLineKind where
  | fileHeader
  | hunkHeader
  | added
  | removed
  | context
  | metadata
deriving DecidableEq, Repr

/-- One rendered diff line: 1-based `index`, classification `kind`,
marker-stripped `content`, and the original `raw` line (the render keeps the
raw line for issue correlation). -/
structure DiffLine where
  index : Nat
  kind : DiffLineKind
  content : String
  raw : String
deriving DecidableEq, Repr

/-- `line.startsWith(pre)` of JavaScript, computed on character lists. -/
def lineStartsWith (line pre : String) : Bool :=
  List.isPrefixOf pre.data line.data

/-- The prefix classification exactly as the branch chain of
`dashboard.tsx` lines 303-371 performs it. -/
def classifyLine (line : String) : DiffLineKind :=
  if lineStartsWith line "diff --git" || lineStartsWith line "index " ||
      lineStartsWith line "---" || lineStartsWith line "+++" then
    .fileHeader
  else if lineStartsWith line "@@" then
    .hunkHeader
  else if lineStartsWith line "+" && !(lineStartsWith line "+++") then
    .added
  else if lineStartsWith line "-" && !(lineStartsWith line "---") then
    .removed
  else if lineStartsWith line " " then
    .context
  else
    .metadata

/-- The prefix rule as the specification states it (§3): `diff --git`,
`index `, `---`, `+++` give FileHeader; `@@` gives HunkHeader; `+` not `+++`
gives Added; `-` not `---` gives Removed; a leading space gives Context;
anything else gives Metadata. -/
def specClassify (line : String) : DiffLineKind :=
  if lineStartsWith line "diff --git" || lineStartsWith line "index " ||
      lineStartsWith line "---" || lineStartsWith line "+++" then
    .fileHeader
  else if lineStartsWith line "@@" then
    .hunkHeader
  else if lineStartsWith line "+" && !(lineStartsWith line "+++") then
    .added
  else if lineStartsWith line "-" && !(lineStartsWith line "---") then
    .removed
  else if lineStartsWith line " " then
    .context
  else
    .metadata

/-- `s.substring(n)` of JavaScript, on character lists. -/
def strDrop (s : String) (n : Nat) : String :=
  ⟨s.data.drop n⟩

/-- Build the diff line of 1-based index `i` from one raw split element:
`kind` from the prefix chain, `content` marker-stripped exactly in the
Added/Removed/Context branches (`line.substring(1)`). -/
def mkDiffLine (i : Nat) (line : String) : DiffLine :=
  { index := i
    kind := classifyLine line
    content :=
      if classifyLine line = .added ∨ classifyLine line = .removed ∨
          classifyLine line = .context then
        strDrop line 1
      else
        line
    raw := line }

/-- Splitting accumulator for `splitNl`; mirrors JavaScript
`text.split(newline)`: a trailing separator yields a trailing empty
element. -/
def splitNlAux : List Char → List Char → List (List Char)
  | [], acc => [acc.reverse]
  | c :: rest, acc =>
    if c = '\n' then acc.reverse :: splitNlAux rest [] else splitNlAux rest (c :: acc)

/-- `diff.split(newline)` of `dashboard.tsx` line 290. -/
def diffLinesOf (t : String) : List String :=
  (splitNlAux t.data []).map (fun l => ⟨l⟩)

/-- Emit one `DiffLine` per split element, indices counting up from `i`. -/
def parseLines : Nat → List String → List DiffLine
  | _, [] => []
  | i, l :: ls => mkDiffLine i l :: parseLines (i + 1) ls

/-- The diff rendering pass: split on newlines, classify by prefix, index
1-based in emission order (`dashboard.tsx` lines 290-371). -/
def parseDiff (t : String) : List DiffLine :=
  parseLines 1 (diffLinesOf t)

/-- `s.includes(pat)` helper: does `l` contain `p` as a contiguous
sublist? -/
def containsSub (p : List Char) : List Char → Bool
  | [] => List.isPrefixOf p []
  | c :: t => List.isPrefixOf p (c :: t) || containsSub p t

/-- JavaScript `line.includes(pat)`; the empty pattern is contained in every
string. -/
def strIncludes (s pat : String) : Bool :=
  containsSub pat.data s.data

/-- One reported finding, as typed in `dashboard.tsx`.  `severity` is the
runtime string value. -/
structure SecurityIssue where
  severity : String
  category : String
  description : String
  lineNumber : Option Int
  filePath : Option String
  recommendation : String
deriving DecidableEq, Repr

/-- Producer-supplied aggregate statistics. -/
structure Statistics where
  totalIssues : Int
  highRisk : Int
  mediumRisk : Int
  lowRisk : Int
deriving DecidableEq, Repr

/-- The canonical analysis consumed by the rendering code. -/
structure SecurityAnalysis where
  summary : String
  overallRisk : String
  issues : List SecurityIssue
  statistics : Statistics
deriving DecidableEq, Repr

/-- Aggregate statistics of the raw streamed object; every field may be
absent (`object.statistics?.totalIssues`). -/
structure RawStatistics where
  totalIssues : Option Int
  highRisk : Option Int
  mediumRisk : Option Int
  lowRisk : Option Int
deriving DecidableEq, Repr

/-- The raw partially-streamed object as the dashboard consumes it: every
top-level field may still be absent. -/
structure RawAnalysis where
  summary : Option String
  overallRisk : Option String
  issues : Option (List SecurityIssue)
  statistics : Option RawStatistics
deriving DecidableEq, Repr

/-- JavaScript truthiness of `issue.filePath` (`null`, `undefined` and the
empty string are falsy). -/
def filePathTruthy : Option String → Bool
  | none => false
  | some s => !s.data.isEmpty

/-- The per-line match predicate of `dashboard.tsx` lines 293-300:
`issue.lineNumber === lineNumber || (issue.filePath && line.includes(issue.filePath))`. -/
def matchesIssue (line : String) (n : Nat) (issue : SecurityIssue) : Bool :=
  issue.lineNumber == some (n : Int) ||
    (filePathTruthy issue.filePath && strIncludes line (issue.filePath.getD ""))

/-- `analysis.issues.find(...)` of `dashboard.tsx` lines 297-300: the first
issue in sequence order matching the line, if any. -/
def correlatedIssue (issues : List SecurityIssue) (line : String) (n : Nat) :
    Option SecurityIssue :=
  issues.find? (matchesIssue line n)

/-- The list-style issue display of `dashboard.tsx` lines 515-548 renders
exactly `analysis.issues`, one card per element. -/
def displayedIssues (a : SecurityAnalysis) : List SecurityIssue :=
  a.issues

/-- The partial-object coercion of `dashboard.tsx` lines 71-81: each `??`
fallback applies only when the field is absent; present values are copied
through unchanged. -/
def coerceRaw (o : RawAnalysis) : SecurityAnalysis :=
  { summary := o.summary.getD ""
    overallRisk := o.overallRisk.getD "low"
    issues := o.issues.getD []
    statistics :=
      { totalIssues := (o.statistics.bind RawStatistics.totalIssues).getD 0
        highRisk := (o.statistics.bind RawStatistics.highRisk).getD 0
        mediumRisk := (o.statistics.bind RawStatistics.mediumRisk).getD 0
        lowRisk := (o.statistics.bind RawStatistics.lowRisk).getD 0 } }

/-- The default empty analysis: all coercion fallbacks taken at once. -/
def defaultAnalysis : SecurityAnalysis :=
  { summary := ""
    overallRisk := "low"
    issues := []
    statistics := { totalIssues := 0, highRisk := 0, mediumRisk := 0, lowRisk := 0 } }

/-- `object ? mapped : null` of `dashboard.tsx` line 71: an absent object
yields no analysis at all. -/
def analysisOfObject (o : Option RawAnalysis) : Option SecurityAnalysis :=
  o.map coerceRaw

/-- Is `b` a UTF-8 continuation byte (0x80-0xBF)? -/
def contByte (b : Nat) : Bool :=
  128 ≤ b && b < 192

/-- Total byte count of the UTF-8 sequence opened by lead byte `lead`
(only called for 0xC0-0xF7 leads). -/
def utf8Need (lead : Nat) : Nat :=
  if lead < 224 then 2 else if lead < 240 then 3 else 4

/-- Assemble the code point of one complete UTF-8 sequence.  Overlong and
surrogate rejection is elided; it is applied uniformly and does not affect
split-invariance. -/
def assemble : List Nat → Nat
  | [l, c] => (l - 192) * 64 + (c - 128)
  | [l, c1, c2] => (l - 224) * 4096 + (c1 - 128) * 64 + (c2 - 128)
  | [l, c1, c2, c3] =>
      (l - 240) * 262144 + (c1 - 128) * 4096 + (c2 - 128) * 64 + (c3 - 128)
  | _ => 65533

/-- Modelled from the spec: the stateful text decoder of the
ChunkAccumulator (§4.2) and of the documented `startAnalysis` read loop
(`decoder.decode(value, stream: true)`); the decoding code itself is not
under `src/`.  State is `(emitted code points, pending partial sequence)`;
one byte is consumed per step, so a multi-byte sequence split across chunk
boundaries is held pending rather than corrupted.  Malformed bytes emit
U+FFFD. -/
def feedByte : List Nat × List Nat → Nat → List Nat × List Nat
  | (out, []), b =>
    if b < 128 then (out ++ [b], [])
    else if b < 192 then (out ++ [65533], [])
    else if b < 248 then (out, [b])
    else (out ++ [65533], [])
  | (out, lead :: conts), b =>
    if contByte b then
      if (lead :: conts).length + 1 = utf8Need lead then
        (out ++ [assemble (lead :: conts ++ [b])], [])
      else
        (out, lead :: conts ++ [b])
    else
      let out' := out ++ [65533]
      if b < 128 then (out' ++ [b], [])
      else if b < 192 then (out' ++ [65533], [])
      else if b < 248 then (out', [b])
      else (out' ++ [65533], [])

/-- Feed one chunk of bytes into the decoder state. -/
def feedBytes (st : List Nat × List Nat) (chunk : List Nat) : List Nat × List Nat :=
  chunk.foldl feedByte st

/-- Modelled from the spec: the read loop over the chunk sequence (§4.2,
§4.6); each chunk is decoded statefully and appended to the growing buffer.
The loop performs no final flush, matching the documented read loop. -/
def runStream (css : List (List Nat)) : List Nat × List Nat :=
  css.foldl feedBytes ([], [])

/-- The accumulated decoded text (as code points) after the whole stream. -/
def streamTextOf (css : List (List Nat)) : List Nat :=
  (runStream css).1

/-- Drop leading text up to the first opening brace (code point 123), which
the extractor ignores (leading prose, code fences). -/
def dropToBrace : List Nat → Option (List Nat)
  | [] => none
  | c :: rest => if c = 123 then some (c :: rest) else dropToBrace rest

/-- Modelled from the spec: the depth-tracking, string-aware scan of the
PartialObjectExtractor (§4.3).  Arguments: remaining text, current brace
depth, inside-string flag, escape flag, accumulator (reversed).  Code points:
34 quote, 92 backslash, 123 open brace, 125 close brace. -/
def extractFrom : List Nat → Nat → Bool → Bool → List Nat → Option (List Nat)
  | [], _, _, _, _ => none
  | c :: rest, depth, inStr, esc, acc =>
    if inStr then
      if esc then extractFrom rest depth true false (c :: acc)
      else if c = 92 then extractFrom rest depth true true (c :: acc)
      else if c = 34 then extractFrom rest depth false false (c :: acc)
      else extractFrom rest depth true false (c :: acc)
    else
      if c = 34 then extractFrom rest depth true false (c :: acc)
      else if c = 123 then extractFrom rest (depth + 1) false false (c :: acc)
      else if c = 125 then
        if depth = 1 then some ((c :: acc).reverse)
        else extractFrom rest (depth - 1) false false (c :: acc)
      else extractFrom rest depth false false (c :: acc)

/-- Modelled from the spec: `extract(text)` of the PartialObjectExtractor
(§4.3) — first brace to the position where depth returns to zero, `none`
while the buffer is still unbalanced. -/
def extractCandidate (text : List Nat) : Option (List Nat) :=
  match dropToBrace text with
  | none => none
  | some l => extractFrom l 0 false false []

/-- The candidate recovered from the fully-streamed buffer. -/
def candidateOf (css : List (List Nat)) : Option (List Nat) :=
  extractCandidate (streamTextOf css)

/-- The per-line annotation of the render pass: for each diff line, the
first matching issue of the current analysis (if any analysis exists). -/
def annotate (diffText : String) (a : Option SecurityAnalysis) :
    List (Nat × Option SecurityIssue) :=
  (parseDiff diffText).map
    (fun l => (l.index, a.bind (fun an => correlatedIssue an.issues l.raw l.index)))

/-- The final state after the stream completes: the analysis obtained from
the extracted candidate (through any structural parse `p` into a raw object,
then the dashboard coercion) together with the full per-line annotation. -/
def finalSnapshot (p : List Nat → Option RawAnalysis) (diffText : String)
    (css : List (List Nat)) :
    Option SecurityAnalysis × List (Nat × Option SecurityIssue) :=
  let a := analysisOfObject ((candidateOf css).bind p)
  (a, annotate diffText a)

/-- `diff.substring(0, n)` of JavaScript, on character lists. -/
def strTake (s : String) (n : Nat) : String :=
  ⟨s.data.take n⟩

/-- The prompt built by the analyze endpoint of `src/unnamed/part_001`:
a fixed template around `diff.substring(0, 30000)`. -/
def buildAnalyzePromptA (diff : String) : String :=
  "\nYou are a Senior Security Engineer. Analyze this Git diff:\n" ++
    strTake diff 30000 ++
    "\n\nIdentify security issues like leaked secrets or SQL injection. \nYour response must be a valid JSON object matching the requested schema.\n      "

/-- The prompt built by the analyze endpoint bundled with
`src/app/api/github/diff/route.ts`: again a fixed template around
`diff.substring(0, 30000)`. -/
def buildAnalyzePromptB (diff : String) : String :=
  "Analyze the following Git diff for security vulnerabilities:\n\n" ++
    strTake diff 30000

/-! Concrete inputs used by counterexamples and witnesses. -/

/-- Scenario A diff text of the specification. -/
def scenarioA : String := "+++ b/a.js\n+const x = 1;\n"

/-- A Low-severity issue carrying line number 2. -/
def lowAt2 : SecurityIssue :=
  { severity := "low", category := "C", description := "D", lineNumber := some 2,
    filePath := none, recommendation := "R" }

/-- A High-severity issue carrying line number 2. -/
def highAt2 : SecurityIssue :=
  { severity := "high", category := "C", description := "D", lineNumber := some 2,
    filePath := none, recommendation := "R" }

/-- A Low-severity issue pointing far away (line 99). -/
def offAt99 : SecurityIssue :=
  { severity := "low", category := "C", description := "D", lineNumber := some 99,
    filePath := none, recommendation := "R" }

/-- An issue matching only through its file path. -/
def pathOnly : SecurityIssue :=
  { severity := "medium", category := "C", description := "D", lineNumber := none,
    filePath := some "a.js", recommendation := "R" }

/-- A High-severity issue carrying line number 1. -/
def lineOne : SecurityIssue :=
  { severity := "high", category := "C", description := "D", lineNumber := some 1,
    filePath := none, recommendation := "R" }

/-- An issue with neither line number nor file path. -/
def orphanIssue : SecurityIssue :=
  { severity := "low", category := "C", description := "orphan", lineNumber := none,
    filePath := none, recommendation := "R" }

/-- An issue whose file path is present but empty. -/
def emptyPathIssue : SecurityIssue :=
  { severity := "low", category := "C", description := "D", lineNumber := some 5,
    filePath := some "", recommendation := "R" }

/-- An analysis holding exactly the orphan issue. -/
def wAnalysis : SecurityAnalysis :=
  { summary := "s", overallRisk := "low", issues := [orphanIssue],
    statistics := { totalIssues := 1, highRisk := 0, mediumRisk := 0, lowRisk := 1 } }

/-- A raw object whose `overallRisk` holds an unrecognized string. -/
def unrecognizedRaw : RawAnalysis :=
  { summary := none, overallRisk := some "banana", issues := none, statistics := none }

/-- A raw object with every optional field absent. -/
def emptyRaw : RawAnalysis :=
  { summary := none, overallRisk := none, issues := none, statistics := none }

/-- Bytes of a stream that ends mid-object: an opening brace and an
unterminated string, never balanced. -/
def truncatedChunk : List Nat :=
  [123, 34, 115, 117, 109, 109, 97, 114, 121, 34, 58, 32, 34, 104, 105]

/-- A five-line diff used as a parsing witness. -/
def wDiff : String := "@@ -1 +1 @@\n+a\n-b\n c\nz"

/-- A 30000-character diff. -/
def wd1 : String := ⟨List.replicate 30000 'a'⟩

/-- The same diff with one extra character beyond position 30000. -/
def wd2 : String := ⟨List.replicate 30000 'a' ++ ['b']⟩

/-! Helper lemmas. -/

theorem classifyLine_eq_specClassify (line : String) :
    classifyLine line = specClassify line := rfl

theorem parseLines_length (s : Nat) (ls : List String) :
    (parseLines s ls).length = ls.length := by
  induction ls generalizing s with
  | nil => rfl
  | cons l ls ih => simp [parseLines, ih]

theorem parseLines_getElem? (s : Nat) (ls : List String) (i : Nat) :
    (parseLines s ls)[i]? = ls[i]?.map (fun line => mkDiffLine (s + i) line) := by
  induction ls generalizing s i with
  | nil => simp [parseLines]
  | cons l ls ih =>
    cases i with
    | zero => simp [parseLines]
    | succ n =>
      have h : s + 1 + n = s + (n + 1) := by omega
      simp [parseLines, ih, h]

theorem containsSub_nil (l : List Char) : containsSub [] l = true := by
  cases l <;> simp [containsSub, List.isPrefixOf]

theorem foldl_feedBytes_join (css : List (List Nat)) (init : List Nat × List Nat) :
    css.foldl feedBytes init = css.flatten.foldl feedByte init := by
  induction css generalizing init with
  | nil => rfl
  | cons c css ih =>
    simp only [List.foldl_cons, List.flatten_cons, List.foldl_append]
    exact ih (feedBytes init c)

/-! Claim theorems. -/

/-- C1 (counterexample): with a Low- and a High-severity issue both carrying
`lineNumber` 2, the dashboard's `issues.find(...)` returns the Low issue when
it occurs first in the sequence — the claimed severity tie-break (High over
Low regardless of order) does not hold on the code. -/
theorem correlate_severity_counterexample :
    correlatedIssue [lowAt2, highAt2] "+let y = 2;" 2 = some lowAt2 ∧
    lowAt2.severity = "low" ∧ highAt2.severity = "high" ∧
    lowAt2.lineNumber = some 2 ∧ highAt2.lineNumber = some 2 ∧ lowAt2 ≠ highAt2 := by
  decide

/-- C1 (amended): the issue chosen for a line is the first issue in the
`issues` sequence that matches it (by line-number equality or truthy
file-path containment); severity plays no role in the choice. -/
theorem correlate_first_match (pre : List SecurityIssue) (i : SecurityIssue)
    (post : List SecurityIssue) (line : String) (n : Nat)
    (hpre : ∀ j ∈ pre, matchesIssue line n j = false)
    (hi : matchesIssue line n i = true) :
    correlatedIssue (pre ++ i :: post) line n = some i := by
  induction pre with
  | nil =>
    simp only [List.nil_append, correlatedIssue]
    exact List.find?_cons_of_pos _ hi
  | cons a pre ih =>
    have ha : matchesIssue line n a = false := hpre a (List.mem_cons_self a pre)
    simp only [List.cons_append, correlatedIssue]
    rw [List.find?_cons_of_neg _ (by simp [ha])]
    exact ih (fun j hj => hpre j (List.mem_cons_of_mem a hj))

/-- C1 (witness): the High issue at line 2 is chosen when it is the first
matching issue in the sequence. -/
theorem correlate_first_match_witness :
    (∀ j ∈ [offAt99], matchesIssue "+let y = 2;" 2 j = false) ∧
    matchesIssue "+let y = 2;" 2 highAt2 = true ∧
    correlatedIssue [offAt99, highAt2, lowAt2] "+let y = 2;" 2 = some highAt2 :=
  ⟨by decide, by decide,
   correlate_first_match [offAt99] highAt2 [lowAt2] "+let y = 2;" 2 (by decide) (by decide)⟩

/-- C2 (counterexample): an issue matching only by file-path containment and
occurring first in the sequence is chosen over a later issue whose
`lineNumber` equals the line's index — the claimed line-number-first priority
does not hold on the code. -/
theorem correlate_priority_counterexample :
    correlatedIssue [pathOnly, lineOne] "+++ b/a.js" 1 = some pathOnly ∧
    pathOnly.lineNumber ≠ some (1 : Int) ∧ lineOne.lineNumber = some (1 : Int) ∧
    strIncludes "+++ b/a.js" (pathOnly.filePath.getD "") = true ∧ pathOnly ≠ lineOne := by
  decide

/-- C2 (amended): the two heuristics are evaluated together per issue, in
sequence order: an issue whose truthy file path is contained in the line
matches, and when it heads the sequence it is chosen no matter which later
issues would match by line number. -/
theorem correlate_path_first_wins (i : SecurityIssue) (rest : List SecurityIssue)
    (line : String) (n : Nat)
    (ht : filePathTruthy i.filePath = true)
    (hs : strIncludes line (i.filePath.getD "") = true) :
    correlatedIssue (i :: rest) line n = some i := by
  have hm : matchesIssue line n i = true := by
    simp [matchesIssue, ht, hs]
  exact List.find?_cons_of_pos _ hm

/-- C2 (witness): the file-path-only issue heading the sequence is chosen at
an index it does not match numerically. -/
theorem correlate_path_first_wins_witness :
    filePathTruthy pathOnly.filePath = true ∧
    strIncludes "+++ b/a.js" (pathOnly.filePath.getD "") = true ∧
    correlatedIssue [pathOnly, lineOne] "+++ b/a.js" 7 = some pathOnly :=
  ⟨by decide, by decide,
   correlate_path_first_wins pathOnly [lineOne] "+++ b/a.js" 7 (by decide) (by decide)⟩

/-- C3: the final analysis and the final per-line annotation depend only on
the concatenated byte stream — any two chunkings of the same bytes, even ones
splitting inside a multi-byte code point, produce the same final snapshot. -/
theorem stream_split_invariance (p : List Nat → Option RawAnalysis)
    (diffText : String) (css1 css2 : List (List Nat))
    (h : css1.flatten = css2.flatten) :
    finalSnapshot p diffText css1 = finalSnapshot p diffText css2 := by
  have hrun : runStream css1 = runStream css2 := by
    rw [runStream, runStream, foldl_feedBytes_join, foldl_feedBytes_join, h]
  simp [finalSnapshot, candidateOf, streamTextOf, hrun]

/-- C3 (witness): the euro sign E2 82 AC split as E2 82 | AC versus
E2 | 82 AC yields identical snapshots. -/
theorem stream_split_invariance_witness :
    ([[226, 130], [172]] : List (List Nat)).flatten =
      ([[226], [130, 172]] : List (List Nat)).flatten ∧
    finalSnapshot (fun _ => none) "+x" [[226, 130], [172]] =
      finalSnapshot (fun _ => none) "+x" [[226], [130, 172]] :=
  ⟨by decide, stream_split_invariance (fun _ => none) "+x" _ _ (by decide)⟩

/-- C4 (counterexample): an `overallRisk` holding the unrecognized string
"banana" is propagated unchanged by the dashboard coercion, not replaced by
the default "low" — the `??` fallback only handles an absent value. -/
theorem coerce_unrecognized_counterexample :
    (coerceRaw unrecognizedRaw).overallRisk = "banana" ∧
    (coerceRaw unrecognizedRaw).overallRisk ≠ "low" ∧
    unrecognizedRaw.overallRisk = some "banana" := by
  decide

/-- C4 (amended): every absent optional field is filled with its default
(summary empty, overallRisk low, issues empty, statistics all zero), while a
present `overallRisk` value is propagated unchanged even when unrecognized. -/
theorem coerce_defaults :
    (∀ o : RawAnalysis, o.summary = none → (coerceRaw o).summary = "") ∧
    (∀ o : RawAnalysis, o.overallRisk = none → (coerceRaw o).overallRisk = "low") ∧
    (∀ o : RawAnalysis, o.issues = none → (coerceRaw o).issues = []) ∧
    (∀ o : RawAnalysis, o.statistics = none →
      (coerceRaw o).statistics =
        { totalIssues := 0, highRisk := 0, mediumRisk := 0, lowRisk := 0 }) ∧
    (∀ (o : RawAnalysis) (s : String), o.overallRisk = some s →
      (coerceRaw o).overallRisk = s) := by
  refine ⟨?_, ?_, ?_, ?_, ?_⟩
  · intro o h; simp [coerceRaw, h]
  · intro o h; simp [coerceRaw, h]
  · intro o h; simp [coerceRaw, h]
  · intro o h; simp [coerceRaw, h]
  · intro o s h; simp [coerceRaw, h]

/-- C4 (witness): the all-absent object coerces to the default analysis and
the "banana" risk value passes through. -/
theorem coerce_defaults_witness :
    (coerceRaw emptyRaw).summary = "" ∧ (coerceRaw emptyRaw).overallRisk = "low" ∧
    (coerceRaw emptyRaw).issues = [] ∧
    (coerceRaw emptyRaw).statistics =
      { totalIssues := 0, highRisk := 0, mediumRisk := 0, lowRisk := 0 } ∧
    (coerceRaw unrecognizedRaw).overallRisk = "banana" :=
  ⟨coerce_defaults.1 emptyRaw rfl, coerce_defaults.2.1 emptyRaw rfl,
   coerce_defaults.2.2.1 emptyRaw rfl, coerce_defaults.2.2.2.1 emptyRaw rfl,
   coerce_defaults.2.2.2.2 unrecognizedRaw "banana" rfl⟩

/-- C5: parsing emits one `DiffLine` per split element, with 1-based indices
equal to position + 1 (hence unique and strictly increasing), and the kind of
each emitted line is exactly the specification's prefix rule applied to the
original line; the function is total. -/
theorem parseDiff_total_indexed_classified (t : String) :
    (parseDiff t).length = (diffLinesOf t).length ∧
    (∀ (i : Nat) (l : DiffLine), (parseDiff t)[i]? = some l →
      l.index = i + 1 ∧ (diffLinesOf t)[i]? = some l.raw ∧
      l.kind = specClassify l.raw) ∧
    (∀ (i j : Nat) (li lj : DiffLine),
      (parseDiff t)[i]? = some li → (parseDiff t)[j]? = some lj →
      i < j → li.index < lj.index) := by
  have hidx : ∀ (i : Nat) (l : DiffLine), (parseDiff t)[i]? = some l →
      l.index = i + 1 ∧ (diffLinesOf t)[i]? = some l.raw ∧
      l.kind = specClassify l.raw := by
    intro i l h
    rw [parseDiff, parseLines_getElem?] at h
    cases hl : (diffLinesOf t)[i]? with
    | none => rw [hl] at h; simp at h
    | some line =>
      rw [hl] at h
      simp only [Option.map_some'] at h
      obtain rfl : mkDiffLine (1 + i) line = l := Option.some.inj h
      refine ⟨by simp [mkDiffLine]; omega, by simp [mkDiffLine, hl], ?_⟩
      simp [mkDiffLine, classifyLine_eq_specClassify]
  refine ⟨?_, hidx, ?_⟩
  · rw [parseDiff]; exact parseLines_length 1 (diffLinesOf t)
  · intro i j li lj hi hj hij
    have h1 := (hidx i li hi).1
    have h2 := (hidx j lj hj).1
    omega

/-- C5 (witness): on a concrete five-line diff the length, index, raw line
and classification facts instantiate. -/
theorem parseDiff_total_witness :
    (parseDiff wDiff).length = (diffLinesOf wDiff).length ∧
    ((mkDiffLine 2 "+a").index = 2 ∧
      (diffLinesOf wDiff)[1]? = some (mkDiffLine 2 "+a").raw ∧
      (mkDiffLine 2 "+a").kind = specClassify (mkDiffLine 2 "+a").raw) ∧
    (mkDiffLine 2 "+a").index < (mkDiffLine 4 " c").index :=
  ⟨(parseDiff_total_indexed_classified wDiff).1,
   (parseDiff_total_indexed_classified wDiff).2.1 1 (mkDiffLine 2 "+a") (by decide),
   (parseDiff_total_indexed_classified wDiff).2.2 1 3 (mkDiffLine 2 "+a")
     (mkDiffLine 4 " c") (by decide) (by decide) (by decide)⟩

/-- C6 (counterexample): parsing the Scenario A diff yields three lines, not
the claimed two — the trailing newline produces a trailing split element. -/
theorem scenarioA_counterexample :
    (parseDiff scenarioA).length = 3 ∧ ¬(parseDiff scenarioA).length = 2 := by
  decide

/-- C6 (amended): Scenario A parses to FileHeader, Added with the marker
stripped, and one additional empty Metadata line produced by the text after
the final newline. -/
theorem scenarioA_three_lines :
    parseDiff scenarioA =
      [{ index := 1, kind := .fileHeader, content := "+++ b/a.js", raw := "+++ b/a.js" },
       { index := 2, kind := .added, content := "const x = 1;", raw := "+const x = 1;" },
       { index := 3, kind := .metadata, content := "", raw := "" }] := by
  decide

/-- C7 (counterexample): a stream ending mid-object yields no candidate, and
the dashboard maps an absent object to no analysis at all — not to the
default empty analysis claimed. -/
theorem truncated_stream_counterexample :
    candidateOf [truncatedChunk] = none ∧
    analysisOfObject ((candidateOf [truncatedChunk]).bind (fun _ => some emptyRaw)) = none ∧
    analysisOfObject none ≠ some defaultAnalysis := by
  decide

/-- C7 (amended): with no valid candidate ever recovered the final state
carries no analysis (null); the default empty analysis arises only when a
candidate object with all fields absent was actually recovered. -/
theorem truncated_stream_no_analysis :
    analysisOfObject ((candidateOf [truncatedChunk]).bind (fun _ => some emptyRaw)) = none ∧
    analysisOfObject (some emptyRaw) = some defaultAnalysis := by
  decide

/-- C8: an issue with neither `lineNumber` nor `filePath` matches no line,
is never the correlated issue of any line, and still appears in the
list-style issue display. -/
theorem orphan_issue_uncorrelatable (issue : SecurityIssue)
    (h1 : issue.lineNumber = none) (h2 : issue.filePath = none) :
    (∀ line n, matchesIssue line n issue = false) ∧
    (∀ issues line n, correlatedIssue issues line n ≠ some issue) ∧
    (∀ a : SecurityAnalysis, issue ∈ a.issues → issue ∈ displayedIssues a) := by
  have hm : ∀ line n, matchesIssue line n issue = false := by
    intro line n
    simp [matchesIssue, h1, h2, filePathTruthy]
  refine ⟨hm, ?_, ?_⟩
  · intro issues line n hc
    have hp := List.find?_some hc
    rw [hm] at hp
    exact Bool.false_ne_true hp
  · intro a ha
    exact ha

/-- C8 (witness): the concrete orphan issue never matches, never correlates,
and is displayed. -/
theorem orphan_issue_uncorrelatable_witness :
    matchesIssue "+x" 1 orphanIssue = false ∧
    correlatedIssue [orphanIssue] "+x" 1 ≠ some orphanIssue ∧
    orphanIssue ∈ displayedIssues wAnalysis :=
  ⟨(orphan_issue_uncorrelatable orphanIssue rfl rfl).1 "+x" 1,
   (orphan_issue_uncorrelatable orphanIssue rfl rfl).2.1 [orphanIssue] "+x" 1,
   (orphan_issue_uncorrelatable orphanIssue rfl rfl).2.2 wAnalysis (by decide)⟩

/-- C9: although every string contains the empty string, an issue whose
`filePath` is the empty string never matches a line through the file-path
heuristic (empty strings are falsy), behaving exactly like an absent
file path. -/
theorem empty_filepath_never_matches :
    (∀ line : String, strIncludes line "" = true) ∧
    (∀ (issue : SecurityIssue) (line : String) (n : Nat),
      issue.filePath = some "" → issue.lineNumber ≠ some (n : Int) →
        matchesIssue line n issue = false) ∧
    (∀ (issue : SecurityIssue) (line : String) (n : Nat),
      matchesIssue line n { issue with filePath := some "" } =
        matchesIssue line n { issue with filePath := none }) := by
  refine ⟨?_, ?_, ?_⟩
  · intro line
    exact containsSub_nil line.data
  · intro issue line n h1 h2
    have hb : (issue.lineNumber == some (n : Int)) = false :=
      beq_eq_false_iff_ne.mpr h2
    simp [matchesIssue, hb, h1, filePathTruthy]
  · intro issue line n
    rfl

/-- C9 (witness): the empty-path issue matches nothing even on a line that
contains every possible empty substring. -/
theorem empty_filepath_never_matches_witness :
    strIncludes "+x" "" = true ∧
    matchesIssue "+x" 1 emptyPathIssue = false ∧
    matchesIssue "+x" 1 { emptyPathIssue with filePath := some "" } =
      matchesIssue "+x" 1 { emptyPathIssue with filePath := none } :=
  ⟨empty_filepath_never_matches.1 "+x",
   empty_filepath_never_matches.2.1 emptyPathIssue "+x" 1 rfl (by decide),
   empty_filepath_never_matches.2.2 emptyPathIssue "+x" 1⟩

/-- C10: both analyze endpoints build their prompt from the first 30000
characters of the diff only — diffs agreeing on that prefix produce the
identical prompt. -/
theorem prompt_depends_on_prefix_only (d1 d2 : String)
    (h : strTake d1 30000 = strTake d2 30000) :
    buildAnalyzePromptA d1 = buildAnalyzePromptA d2 ∧
    buildAnalyzePromptB d1 = buildAnalyzePromptB d2 := by
  constructor
  · unfold buildAnalyzePromptA
    rw [h]
  · unfold buildAnalyzePromptB
    rw [h]

/-- C10 (witness): two diffs differing only beyond position 30000 produce
the identical prompts. -/
theorem prompt_depends_on_prefix_only_witness :
    buildAnalyzePromptA wd1 = buildAnalyzePromptA wd2 ∧
    buildAnalyzePromptB wd1 = buildAnalyzePromptB wd2 :=
  prompt_depends_on_prefix_only wd1 wd2 (by
    show (⟨(List.replicate 30000 'a').take 30000⟩ : String) =
      ⟨((List.replicate 30000 'a') ++ ['b']).take 30000⟩
    have hlen : (30000 : Nat) ≤ (List.replicate 30000 'a').length := by
      rw [List.length_replicate]
    rw [List.take_append_of_le_length hlen])
